import Mathlib

/-!
Shallow embedding of the GoGraphQL todo service (src/main.go).

The program keeps a package-level slice `TodoList []Todo`, seeded by `init`
with three records, and exposes five GraphQL resolvers over it:
`createTodo`, `updateTodo` (mutations) and `todo`, `lastTodo`, `todoList`
(queries).  Each resolver is modelled as a pure function on the list of
records; mutations additionally return the new value of `TodoList`.  A Go
resolver returns an `(interface\x7b\x7d, error)` pair; in this program the error
is always nil, and the only failure mode is a runtime panic (indexing an
empty slice in `lastTodo`), so the outcome type has three cases: a value
with nil error, a Go error of one of the kinds the spec names, or a crash.
-/

/-- Mirror of the Go struct `Todo` (src/main.go 13-18). -/
structure Todo where
  ID   : String
  Text : String
  Done : Bool
  Task : String
deriving DecidableEq

/-- The Go zero value `Todo{}`: empty strings and false. -/
def zeroTodo : Todo := ⟨"", "", false, ""⟩

/-- Error kinds named by the specification (InvalidArgument, NotFound, Empty).
The source never constructs any Go error, but the type is needed to state
claims about which errors are (not) returned. -/
inductive ErrKind where
  | invalidArgument
  | notFound
  | empty
deriving DecidableEq

/-- Outcome of a Go resolver call: `ok v` is `(v, nil)`, `err e` is a returned
Go error, and `crash` is a runtime panic. -/
inductive GoResult (α : Type) where
  | ok : α → GoResult α
  | err : ErrKind → GoResult α
  | crash : GoResult α
deriving DecidableEq

/-- The dynamic value a resolver hands to the GraphQL layer: either a single
record or the whole list (Go returns `interface\x7b\x7d`, so both shapes occur). -/
inductive GqlValue where
  | record : Todo → GqlValue
  | records : List Todo → GqlValue
deriving DecidableEq

/-- The three seed records appended by `init` (src/main.go 31-38); their
`Task` field is the Go zero value, the empty string. -/
def initTodoList : List Todo :=
  [⟨"a", "A todo not to forget", false, ""⟩,
   ⟨"b", "This is the most important", false, ""⟩,
   ⟨"c", "Please do this or else", false, ""⟩]

/-- The record built by the createTodo resolver (src/main.go 87-92): the
identifier is the literal "id0001" and `Done` is set to `true`. -/
def newTodo (text task : String) : Todo :=
  { ID := "id0001", Text := text, Done := true, Task := task }

/-- createTodo resolver (src/main.go 79-102): appends `newTodo text task` to
`TodoList` and returns the whole updated `TodoList` with nil error.  The
result pairs the resolver return value with the new store state. -/
def createTodoResolve (s : List Todo) (text task : String) :
    GoResult GqlValue × List Todo :=
  let sNew := s ++ [newTodo text task]
  (GoResult.ok (GqlValue.records sNew), sNew)

/-- The updateTodo loop (src/main.go 124-131): walk the list in order, set
`Done` on the first record whose `ID` equals the argument, then break;
`affectedTodo` is that updated record, or the zero `Todo` when no record
matches.  Returns (new list, affectedTodo). -/
def updateFirst (s : List Todo) (id : String) (done : Bool) : List Todo × Todo :=
  match s with
  | [] => ([], zeroTodo)
  | t :: rest =>
    if t.ID = id then
      ({ t with Done := done } :: rest, { t with Done := done })
    else
      let r := updateFirst rest id done
      (t :: r.1, r.2)

/-- updateTodo resolver (src/main.go 117-134): runs the loop and returns
`affectedTodo` with nil error, never a NotFound error. -/
def updateTodoResolve (s : List Todo) (id : String) (done : Bool) :
    GoResult GqlValue × List Todo :=
  let r := updateFirst s id done
  (GoResult.ok (GqlValue.record r.2), r.1)

/-- Linear scan of the todo query (src/main.go 163-167): first record whose
`ID` equals the query argument. -/
def findFirst (s : List Todo) (id : String) : Option Todo :=
  match s with
  | [] => none
  | t :: rest => if t.ID = id then some t else findFirst rest id

/-- todo resolver (src/main.go 158-171): the `id` argument is optional
(`none` models an absent argument, for which the type assertion yields
`isOK = false`); when the argument is absent or matches nothing, the
resolver returns the zero `Todo` with nil error. -/
def todoResolve (s : List Todo) (arg : Option String) : GoResult GqlValue :=
  match arg with
  | some id =>
    match findFirst s id with
    | some t => GoResult.ok (GqlValue.record t)
    | none => GoResult.ok (GqlValue.record zeroTodo)
  | none => GoResult.ok (GqlValue.record zeroTodo)

/-- lastTodo resolver (src/main.go 177-179): evaluates
`TodoList[len(TodoList)-1]`, which panics at runtime when the list is
empty. -/
def lastTodoResolve (s : List Todo) : GoResult GqlValue :=
  match s.getLast? with
  | some t => GoResult.ok (GqlValue.record t)
  | none => GoResult.crash

/-- todoList resolver (src/main.go 188-190): returns the whole list. -/
def todoListResolve (s : List Todo) : GoResult GqlValue :=
  GoResult.ok (GqlValue.records s)

/-- One mutation invocation against the store. -/
inductive Op where
  | create : String → String → Op
  | update : String → Bool → Op

/-- State transition of the global `TodoList` under one mutation. -/
def applyOp (s : List Todo) : Op → List Todo
  | Op.create text task => (createTodoResolve s text task).2
  | Op.update id done => (updateTodoResolve s id done).2

/-- Run a sequence of mutations from a given state. -/
def runOps (s : List Todo) (ops : List Op) : List Todo :=
  ops.foldl applyOp s

/-- Number of create calls in a sequence of mutations (in this program every
create call succeeds). -/
def countCreates : List Op → Nat
  | [] => 0
  | Op.create _ _ :: rest => countCreates rest + 1
  | Op.update _ _ :: rest => countCreates rest

/-! ## Helper lemmas -/

/-- Unfolding one step of `runOps`. -/
theorem runOps_cons (s : List Todo) (op : Op) (ops : List Op) :
    runOps s (op :: ops) = runOps (applyOp s op) ops := rfl

/-- When no record matches, the update loop leaves the list as it was and
`affectedTodo` stays the zero record. -/
theorem updateFirst_miss (s : List Todo) (id : String) (d : Bool)
    (h : ∀ t ∈ s, t.ID ≠ id) : updateFirst s id d = (s, zeroTodo) := by
  induction s with
  | nil => rfl
  | cons t rest ih =>
    have ht : t.ID ≠ id := h t (List.mem_cons_self t rest)
    have hr := ih (fun x hx => h x (List.mem_cons_of_mem t hx))
    simp [updateFirst, ht, hr]

/-- When no record matches, the linear scan returns nothing. -/
theorem findFirst_eq_none (s : List Todo) (id : String)
    (h : ∀ t ∈ s, t.ID ≠ id) : findFirst s id = none := by
  induction s with
  | nil => rfl
  | cons t rest ih =>
    have ht : t.ID ≠ id := h t (List.mem_cons_self t rest)
    have hr := ih (fun x hx => h x (List.mem_cons_of_mem t hx))
    simp [findFirst, ht, hr]

/-- After updating, the scan for the same identifier finds the first match
with its `Done` field set to the given value and all other fields intact. -/
theorem findFirst_updateFirst (s : List Todo) (id : String) (d : Bool) (t₀ : Todo)
    (h : findFirst s id = some t₀) :
    findFirst (updateFirst s id d).1 id = some { t₀ with Done := d } := by
  induction s with
  | nil => simp [findFirst] at h
  | cons t rest ih =>
    by_cases ht : t.ID = id
    · simp only [findFirst, if_pos ht, Option.some.injEq] at h
      subst h
      simp [updateFirst, ht, findFirst]
    · simp only [findFirst, if_neg ht] at h
      simp [updateFirst, ht, findFirst, ih h]

/-- The update loop on a list split around its first match: the prefix and the
suffix are returned untouched, only the matching record has `Done` set. -/
theorem updateFirst_split (a b : List Todo) (t : Todo) (id : String) (d : Bool)
    (ha : ∀ x ∈ a, x.ID ≠ id) (ht : t.ID = id) :
    updateFirst (a ++ t :: b) id d =
      (a ++ { t with Done := d } :: b, { t with Done := d }) := by
  induction a with
  | nil => simp [updateFirst, ht]
  | cons x xs ih =>
    have hx : x.ID ≠ id := ha x (List.mem_cons_self x xs)
    have hxs := ih (fun y hy => ha y (List.mem_cons_of_mem x hy))
    simp [updateFirst, hx, hxs]

/-- The update loop never changes the length of the list. -/
theorem updateFirst_length (s : List Todo) (id : String) (d : Bool) :
    (updateFirst s id d).1.length = s.length := by
  induction s with
  | nil => rfl
  | cons t rest ih =>
    by_cases ht : t.ID = id <;> simp [updateFirst, ht, ih]

/-- Running a mutation sequence grows the list by exactly the number of
create calls in it. -/
theorem runOps_length (ops : List Op) : ∀ s : List Todo,
    (runOps s ops).length = s.length + countCreates ops := by
  induction ops with
  | nil => intro s; simp [runOps, countCreates]
  | cons op rest ih =>
    intro s
    rw [runOps_cons, ih]
    cases op with
    | create text task =>
      simp [applyOp, createTodoResolve, countCreates]
      omega
    | update id d =>
      simp [applyOp, updateTodoResolve, countCreates, updateFirst_length]

/-- A sequence consisting only of creates appends the created records in call
order after the existing contents. -/
theorem runOps_creates (args : List (String × String)) : ∀ s : List Todo,
    runOps s (args.map fun a => Op.create a.1 a.2) =
      s ++ args.map fun a => newTodo a.1 a.2 := by
  induction args with
  | nil => intro s; simp [runOps]
  | cons a rest ih =>
    intro s
    simp only [List.map_cons]
    rw [runOps_cons, ih]
    simp [applyOp, createTodoResolve]

/-! ## Claims -/

/-- C1 counterexample: already after two createTodo calls from the seeded
state the stored identifiers are not pairwise distinct — both created
records carry the literal identifier "id0001". -/
theorem c1_counterexample :
    ¬ ((runOps initTodoList [Op.create "x" "", Op.create "y" ""]).map Todo.ID).Nodup := by
  decide

/-- C1 (amended): every record created by createTodo carries the constant
identifier "id0001", so identifiers of created records are never distinct
from one another; the new store state is the old one with that record
appended. -/
theorem c1_const_id (s : List Todo) (text task : String) :
    (createTodoResolve s text task).2 = s ++ [newTodo text task] ∧
    (newTodo text task).ID = "id0001" :=
  ⟨rfl, rfl⟩

/-- C2 (code bug): at the input createTodo(text = "This is a todo mutation
example", task = "") — the exact call documented in src/main.go 223-239 with
expected output done = false — the resolver stores and returns a record
whose Done field is true (src/main.go line 90 sets `Done: true`). -/
theorem c2_done_true :
    (createTodoResolve initTodoList "This is a todo mutation example" "").2.getLast? =
      some ⟨"id0001", "This is a todo mutation example", true, ""⟩ := by
  decide

/-- C3 counterexample: updateTodo with the unmatched identifier
"nonexistent" returns the zero record with nil error — not a NotFound
error — although the collection is indeed left unchanged. -/
theorem c3_counterexample :
    (updateTodoResolve initTodoList "nonexistent" true).1 =
        GoResult.ok (GqlValue.record zeroTodo) ∧
    (updateTodoResolve initTodoList "nonexistent" true).1 ≠
        GoResult.err ErrKind.notFound ∧
    (updateTodoResolve initTodoList "nonexistent" true).2 = initTodoList := by
  refine ⟨by decide, by decide, by decide⟩

/-- C3 (amended): for every identifier matching no record, updateTodo
returns the zero-valued record with nil error (it does not fail with
NotFound) and leaves the collection unchanged in size and contents. -/
theorem c3_update_miss (s : List Todo) (id : String) (d : Bool)
    (h : ∀ t ∈ s, t.ID ≠ id) :
    updateTodoResolve s id d = (GoResult.ok (GqlValue.record zeroTodo), s) := by
  simp [updateTodoResolve, updateFirst_miss s id d h]

/-- C3 witness: the amended statement at the concrete miss "nonexistent" on
the seeded store. -/
theorem c3_update_miss_witness :
    updateTodoResolve initTodoList "nonexistent" true =
      (GoResult.ok (GqlValue.record zeroTodo), initTodoList) :=
  c3_update_miss initTodoList "nonexistent" true (by decide)

/-- C4 counterexample: on the empty collection, lastTodo does not fail with
an Empty error as the claim states. -/
theorem c4_counterexample :
    lastTodoResolve [] ≠ GoResult.err ErrKind.empty := by
  decide

/-- C4 (amended): when the collection has zero records, lastTodo crashes —
indexing `TodoList[len(TodoList)-1]` panics with an index-out-of-range
runtime error — rather than failing with an Empty error or returning a
record. -/
theorem c4_crash_on_empty :
    lastTodoResolve [] = GoResult.crash := by
  decide

/-- C5 counterexample: createTodo with empty text does not fail with
InvalidArgument; it succeeds and the collection grows by one record. -/
theorem c5_counterexample :
    (createTodoResolve initTodoList "" "x").1 ≠ GoResult.err ErrKind.invalidArgument ∧
    (createTodoResolve initTodoList "" "x").2.length = initTodoList.length + 1 := by
  refine ⟨by decide, by decide⟩

/-- C5 (amended): createTodo with an empty text argument succeeds like any
other create: it returns the whole enlarged list with nil error and appends
a record with empty text, so the collection is not left unchanged. -/
theorem c5_empty_text_ok (s : List Todo) (task : String) :
    (createTodoResolve s "" task).1 =
        GoResult.ok (GqlValue.records (s ++ [newTodo "" task])) ∧
    (createTodoResolve s "" task).2 = s ++ [newTodo "" task] :=
  ⟨rfl, rfl⟩

/-- C6 counterexample: with zero create calls made, todoList already returns
the three seed records, so its length does not equal the number of
successful create calls. -/
theorem c6_counterexample :
    runOps initTodoList [] = initTodoList ∧
    todoListResolve initTodoList = GoResult.ok (GqlValue.records initTodoList) ∧
    initTodoList.length ≠ 0 := by
  refine ⟨rfl, rfl, by decide⟩

/-- C6 (amended): after any sequence of mutations, the list todoList returns
has length 3 (the seed records) plus the number of create calls made so
far; and a sequence of create calls appends its records after the seeds in
call order. -/
theorem c6_list_length :
    (∀ ops : List Op, (runOps initTodoList ops).length = 3 + countCreates ops) ∧
    (∀ args : List (String × String),
      runOps initTodoList (args.map fun a => Op.create a.1 a.2) =
        initTodoList ++ args.map fun a => newTodo a.1 a.2) := by
  constructor
  · intro ops
    rw [runOps_length]
    rfl
  · intro args
    exact runOps_creates args initTodoList

/-- C7: for every store containing a record with the given identifier
(t₀ being the first such record, the one both the update loop and the todo
query locate), updateTodo(id, true) followed by todo(id) returns a record
whose Done field is true and whose ID, Text and Task fields are those t₀
had before the update. -/
theorem c7_update_then_get (s : List Todo) (id : String) (t₀ : Todo)
    (h : findFirst s id = some t₀) :
    todoResolve (updateTodoResolve s id true).2 (some id) =
      GoResult.ok (GqlValue.record { t₀ with Done := true }) := by
  have hf := findFirst_updateFirst s id true t₀ h
  simp [todoResolve, updateTodoResolve, hf]

/-- C7 witness: update then get on the seed record with identifier "b". -/
theorem c7_update_then_get_witness :
    todoResolve (updateTodoResolve initTodoList "b" true).2 (some "b") =
      GoResult.ok (GqlValue.record ⟨"b", "This is the most important", true, ""⟩) :=
  c7_update_then_get initTodoList "b"
    ⟨"b", "This is the most important", false, ""⟩ (by decide)

/-- C8 (code bug): at the input createTodo(text = "Buy milk", task = ""),
the resolver returns the entire four-element TodoList with nil error — not
a single record equal to the one just stored, although the source file
declares the field type as a single Todo and its comment (src/main.go
94-98) says a Todo struct instance is returned. -/
theorem c8_returns_whole_list :
    (createTodoResolve initTodoList "Buy milk" "").1 =
      GoResult.ok (GqlValue.records (initTodoList ++ [newTodo "Buy milk" ""])) ∧
    (initTodoList ++ [newTodo "Buy milk" ""]).length = 4 := by
  refine ⟨rfl, by decide⟩

/-- C9: for every identifier matching no record, the todo query returns the
zero-valued record with nil error, and the same zero-valued result is
returned when the id argument is omitted. -/
theorem c9_get_miss (s : List Todo) (id : String)
    (h : ∀ t ∈ s, t.ID ≠ id) :
    todoResolve s (some id) = GoResult.ok (GqlValue.record zeroTodo) ∧
    todoResolve s none = GoResult.ok (GqlValue.record zeroTodo) := by
  refine ⟨?_, rfl⟩
  simp [todoResolve, findFirst_eq_none s id h]

/-- C9 witness: the miss "zzz" on the seeded store, and the omitted
argument. -/
theorem c9_get_miss_witness :
    todoResolve initTodoList (some "zzz") = GoResult.ok (GqlValue.record zeroTodo) ∧
    todoResolve initTodoList none = GoResult.ok (GqlValue.record zeroTodo) :=
  c9_get_miss initTodoList "zzz" (by decide)

/-- C10: when the store splits as a prefix with no matching identifier, a
first matching record t, and an arbitrary suffix (which may hold further
records with the same identifier), updateTodo modifies only t — setting its
Done field — and returns it; the prefix and the whole suffix are unchanged. -/
theorem c10_update_first_only (a b : List Todo) (t : Todo) (id : String) (d : Bool)
    (ha : ∀ x ∈ a, x.ID ≠ id) (ht : t.ID = id) :
    (updateTodoResolve (a ++ t :: b) id d).2 = a ++ { t with Done := d } :: b ∧
    (updateTodoResolve (a ++ t :: b) id d).1 =
      GoResult.ok (GqlValue.record { t with Done := d }) := by
  have hs := updateFirst_split a b t id d ha ht
  simp [updateTodoResolve, hs]

/-- C10 witness: a store holding two records with the duplicate identifier
"id0001"; only the first is modified, the later duplicate is untouched. -/
theorem c10_update_first_only_witness :
    (updateTodoResolve
        ([⟨"a", "A todo not to forget", false, ""⟩] ++
          ⟨"id0001", "first", true, ""⟩ :: [⟨"id0001", "second", true, ""⟩])
        "id0001" false).2 =
      [⟨"a", "A todo not to forget", false, ""⟩] ++
        ⟨"id0001", "first", false, ""⟩ :: [⟨"id0001", "second", true, ""⟩] ∧
    (updateTodoResolve
        ([⟨"a", "A todo not to forget", false, ""⟩] ++
          ⟨"id0001", "first", true, ""⟩ :: [⟨"id0001", "second", true, ""⟩])
        "id0001" false).1 =
      GoResult.ok (GqlValue.record ⟨"id0001", "first", false, ""⟩) :=
  c10_update_first_only
    [⟨"a", "A todo not to forget", false, ""⟩]
    [⟨"id0001", "second", true, ""⟩]
    ⟨"id0001", "first", true, ""⟩ "id0001" false (by decide) (by decide)
